import Mathlib

/-!
Shallow embedding of the tunnel subsystem of `src/cli_holdover/src/ssh_tunnel.py`:
the `SSHConfig` dataclass, the `SSHTunnel` class (start / stop / is_active /
get_local_url / wait_ready) and the `SSHTunnelManager` registry
(create_tunnel / get_tunnel / close_tunnel / close_all / list_active).

Modelling conventions:
- A spawned OS process is a `Proc`: a pid plus a liveness flag; `poll() is None`
  in the Python source corresponds to `alive = true` here.
- External nondeterminism of `start` (whether `subprocess.Popen` raises, whether
  the child is still alive after the 2s grace sleep, whether the TCP readiness
  probe connects) is an explicit `StartEnv` argument; `start` itself is a total
  function, mirroring the source's `try/except` that converts every exception
  into a `False` return.
- `start` returns, besides the boolean result and the updated object state, the
  list of processes it spawned during the call (with their liveness at return
  time) and the argv it passed to `Popen`, so that claims about leaked
  processes and about the command shape can be stated.
- Python truthiness is modelled where the source relies on it: empty strings in
  `config.key_file` / `config.username` and `0` in `config.local_port` count as
  absent, and `if self.process:` is always true for a `Popen` object, hence
  `Option.isSome` there.
- The registry dict is an association list with unique keys in insertion order
  (Python dicts preserve insertion order); `del d[name]` is erasure of the
  first matching key, `d[name] = v` overwrites in place or appends.
-/

namespace SshTunnelSpec

/-- The `SSHConfig` dataclass (source lines 9-18). -/
structure SSHConfig where
  host : String
  port : Nat
  username : Option String
  key_file : Option String
  password : Option String
  local_port : Option Nat
  remote_port : Nat
  remote_host : String
deriving DecidableEq

/-- One spawned forwarding process: its pid and whether it is still running
(the source checks this with `process.poll() is None`). -/
structure Proc where
  pid : Nat
  alive : Bool
deriving DecidableEq

/-- The mutable state of one `SSHTunnel` object: the config, the owned
`subprocess.Popen` handle if any, the assigned local port, and the
`threading.Event` readiness flag `_tunnel_ready`. -/
structure SSHTunnel where
  config : SSHConfig
  process : Option Proc
  local_port : Nat
  tunnel_ready : Bool
deriving DecidableEq

/-- `SSHTunnel.__init__` (source lines 21-25): `self.local_port =
ssh_config.local_port or self._find_free_port()`; Python `or` treats both
`None` and `0` as falsy, so the allocator result `freePort` is used in those
cases. The readiness event starts clear and no process is owned. -/
def SSHTunnel.init (cfg : SSHConfig) (freePort : Nat) : SSHTunnel :=
  { config := cfg
    process := none
    local_port :=
      match cfg.local_port with
      | some p => if p = 0 then freePort else p
      | none => freePort
    tunnel_ready := false }

/-- `SSHTunnel.is_active` (source lines 116-118): `self.process is not None and
self.process.poll() is None`. -/
def SSHTunnel.is_active (t : SSHTunnel) : Bool :=
  match t.process with
  | some p => p.alive
  | none => false

/-- The argv built by `SSHTunnel.start` (source lines 41-62): base flags, then
`-i key_file` when truthy, then `username@host` when `username` truthy else
`host`, then `-p port` when `port != 22`. -/
def SSHTunnel.build_cmd (t : SSHTunnel) : List String :=
  let base : List String :=
    ["ssh", "-N",
     "-L", toString t.local_port ++ ":" ++ t.config.remote_host ++ ":" ++
           toString t.config.remote_port,
     "-o", "StrictHostKeyChecking=no",
     "-o", "UserKnownHostsFile=/dev/null",
     "-o", "LogLevel=ERROR"]
  let withKey : List String :=
    match t.config.key_file with
    | some k => if k = "" then base else base ++ ["-i", k]
    | none => base
  let withHost : List String :=
    match t.config.username with
    | some u =>
        if u = "" then withKey ++ [t.config.host]
        else withKey ++ [u ++ "@" ++ t.config.host]
    | none => withKey ++ [t.config.host]
  if t.config.port ≠ 22 then withHost ++ ["-p", toString t.config.port]
  else withHost

/-- `SSHTunnel.stop` (source lines 105-114): if a process is owned, terminate
it, wait up to 10s, escalate to `kill()` on timeout — in every branch the
process ends up not running — and drop the handle; in all cases clear the
readiness event. Returns the new state together with the processes the call
terminated (at their final, dead, state). -/
def SSHTunnel.stop (t : SSHTunnel) : SSHTunnel × List Proc :=
  match t.process with
  | some p =>
      ({ t with process := none, tunnel_ready := false },
       [{ p with alive := false }])
  | none => ({ t with tunnel_ready := false }, [])

/-- The external events `SSHTunnel.start` is exposed to: whether
`subprocess.Popen` succeeds (`spawnOk`; the source catches the exception
otherwise), the pid of the new child, whether the child is still running after
the fixed 2s grace sleep (`aliveAfterGrace`, i.e. `poll() is None`), and
whether the readiness probe `_test_tunnel` manages a TCP connect within its 5s
timeout (`probeOk`). -/
structure StartEnv where
  spawnOk : Bool
  newPid : Nat
  aliveAfterGrace : Bool
  probeOk : Bool
deriving DecidableEq

/-- What one call to `SSHTunnel.start` produces: the boolean return value, the
updated object state, every process spawned during the call with its liveness
at return time, and the argv handed to `Popen` when the call got that far. -/
structure StartOutcome where
  ok : Bool
  tunnel : SSHTunnel
  spawned : List Proc
  cmd : Option (List String)
deriving DecidableEq

/-- `SSHTunnel.start` (source lines 35-93). Early `True` return when already
active; otherwise build the command, spawn, sleep 2s, and branch on
`poll()`/probe exactly as the source does: probe success sets `_tunnel_ready`
and returns `True`; probe failure calls `self.stop()` and returns `False`; an
early child exit reads stderr and returns `False` leaving the dead `Popen`
handle in place; a `Popen` exception is caught and returns `False`. -/
def SSHTunnel.start (t : SSHTunnel) (env : StartEnv) : StartOutcome :=
  if t.is_active then
    { ok := true, tunnel := t, spawned := [], cmd := none }
  else
    let cmd := t.build_cmd
    if env.spawnOk then
      if env.aliveAfterGrace then
        let t1 : SSHTunnel := { t with process := some ⟨env.newPid, true⟩ }
        if env.probeOk then
          { ok := true
            tunnel := { t1 with tunnel_ready := true }
            spawned := [⟨env.newPid, true⟩]
            cmd := some cmd }
        else
          let s := t1.stop
          { ok := false, tunnel := s.1, spawned := s.2, cmd := some cmd }
      else
        { ok := false
          tunnel := { t with process := some ⟨env.newPid, false⟩ }
          spawned := [⟨env.newPid, false⟩]
          cmd := some cmd }
    else
      { ok := false, tunnel := t, spawned := [], cmd := some cmd }

/-- `SSHTunnel.get_local_url` (source lines 120-122):
`f"http://localhost:{self.local_port}"`. -/
def SSHTunnel.get_local_url (t : SSHTunnel) : String :=
  "http://localhost:" ++ toString t.local_port

/-- `SSHTunnel.wait_ready` (source lines 124-126): `self._tunnel_ready.wait(timeout)`
returns the event's value; in this sequential model nothing can set the event
while the caller blocks, so it returns the current flag. -/
def SSHTunnel.wait_ready (t : SSHTunnel) (_timeout : Nat) : Bool :=
  t.tunnel_ready

/-- The underlying forwarding process exiting externally (e.g. killed from the
shell): the owned `Popen` object, if any, now reports a non-`None` `poll()`.
The tunnel object itself is not notified. -/
def SSHTunnel.external_death (t : SSHTunnel) : SSHTunnel :=
  { t with process := t.process.map fun p => { p with alive := false } }

/-- The `SSHTunnelManager.active_tunnels` dict (source line 142): an
association list in insertion order with unique keys. -/
abbrev Registry := List (String × SSHTunnel)

/-- Dict deletion `del self.active_tunnels[name]`: erase the first (and, keys
being unique, only) binding of `name`. -/
def eraseT (m : Registry) (name : String) : Registry :=
  m.eraseP fun e => e.1 = name

/-- Dict assignment `self.active_tunnels[name] = tunnel`: overwrite in place
when the key exists, else append. -/
def insertT (m : Registry) (name : String) (t : SSHTunnel) : Registry :=
  if (m.lookup name).isSome then
    m.map fun e => if e.1 = name then (name, t) else e
  else m ++ [(name, t)]

/-- What one call to `SSHTunnelManager.create_tunnel` produces: the returned
`Optional[SSHTunnel]`, the registry afterwards, and every process spawned
during the call with its liveness at return time. -/
structure CreateOutcome where
  result : Option SSHTunnel
  reg : Registry
  spawned : List Proc
deriving DecidableEq

/-- The tail of `SSHTunnelManager.create_tunnel` (source lines 155-159):
construct a fresh `SSHTunnel`, call `start`; on success insert and return it,
on failure return `None` inserting nothing. -/
def create_fresh (m : Registry) (name : String) (cfg : SSHConfig)
    (freePort : Nat) (env : StartEnv) : CreateOutcome :=
  let r := (SSHTunnel.init cfg freePort).start env
  if r.ok then ⟨some r.tunnel, insertT m name r.tunnel, r.spawned⟩
  else ⟨none, m, r.spawned⟩

/-- `SSHTunnelManager.create_tunnel` (source lines 144-159): if an entry for
`name` exists and is active, return it unchanged; if it exists but is dead,
delete it; then fall through to `create_fresh`. -/
def create_tunnel (m : Registry) (name : String) (cfg : SSHConfig)
    (freePort : Nat) (env : StartEnv) : CreateOutcome :=
  match m.lookup name with
  | some t =>
      if t.is_active then ⟨some t, m, []⟩
      else create_fresh (eraseT m name) name cfg freePort env
  | none => create_fresh m name cfg freePort env

/-- `SSHTunnelManager.get_tunnel` (source lines 161-169): return the entry
only when active; delete it when present but dead; `None` otherwise. -/
def get_tunnel (m : Registry) (name : String) : Option SSHTunnel × Registry :=
  match m.lookup name with
  | some t => if t.is_active then (some t, m) else (none, eraseT m name)
  | none => (none, m)

/-- `SSHTunnelManager.close_tunnel` (source lines 171-175): stop the handle if
present, then remove it. Returns the registry afterwards and the terminated
processes. -/
def close_tunnel (m : Registry) (name : String) : Registry × List Proc :=
  match m.lookup name with
  | some t => (eraseT m name, t.stop.2)
  | none => (m, [])

/-- The loop of `SSHTunnelManager.close_all`: stop every held handle in order,
collecting the terminated processes. -/
def stop_all : Registry → List Proc
  | [] => []
  | e :: rest => e.2.stop.2 ++ stop_all rest

/-- `SSHTunnelManager.close_all` (source lines 177-181): stop every handle,
then `self.active_tunnels.clear()`. -/
def close_all (m : Registry) : Registry × List Proc :=
  ([], stop_all m)

/-- `SSHTunnelManager.list_active` (source lines 183-192): scan the entries in
order; active ones go into the returned name→url mapping and stay in the
registry, dead ones are deleted during the scan. Returns the snapshot and the
registry afterwards. -/
def list_active : Registry → List (String × String) × Registry
  | [] => ([], [])
  | (name, t) :: rest =>
      let r := list_active rest
      if t.is_active then ((name, t.get_local_url) :: r.1, (name, t) :: r.2)
      else (r.1, r.2)

/-- The process behind the entry named `name` exits externally; the registry
itself is not notified. -/
def kill_entry (m : Registry) (name : String) : Registry :=
  m.map fun e => if e.1 = name then (e.1, e.2.external_death) else e

/-- Tunnel states reachable through the object's own lifecycle: construction,
any `start` call, any `stop` call, and the underlying process dying
externally. -/
inductive Reachable : SSHTunnel → Prop
  | init (cfg : SSHConfig) (freePort : Nat) : Reachable (SSHTunnel.init cfg freePort)
  | start (t : SSHTunnel) (env : StartEnv) :
      Reachable t → Reachable (t.start env).tunnel
  | stop (t : SSHTunnel) : Reachable t → Reachable t.stop.1
  | ext (t : SSHTunnel) : Reachable t → Reachable t.external_death

/-- Program counter of one thread running `create_tunnel(name, cfg)` in the
interleaving model: about to do the reuse-check-and-evict block, about to do
the spawn-and-insert block, or finished. -/
inductive TPhase
  | pCheck
  | pStart
  | pDone
deriving DecidableEq

/-- Global state of two threads A and B racing on one registry: the shared
dict, each thread's program counter and eventual return value, and the
processes spawned so far by either thread (with current liveness). -/
structure ConcState where
  reg : Registry
  pcA : TPhase
  pcB : TPhase
  resA : Option SSHTunnel
  resB : Option SSHTunnel
  spawned : List Proc
deriving DecidableEq

/-- Thread identifiers for the interleaving model. -/
inductive Tid
  | A
  | B
deriving DecidableEq

/-- One atomic block of `create_tunnel` as run by a single thread. The call is
split into the two regions the source separates by the blocking `start()`
(which sleeps 2s): the membership-check-and-evict region, and the
spawn-then-insert region. This granularity is coarser than CPython's actual
bytecode interleaving, so every behaviour it exhibits is a behaviour of the
source. -/
def threadStep (name : String) (cfg : SSHConfig) (freePort : Nat)
    (env : StartEnv) (reg : Registry) (pc : TPhase) (res : Option SSHTunnel)
    (sp : List Proc) :
    Registry × TPhase × Option SSHTunnel × List Proc :=
  match pc with
  | .pCheck =>
      match reg.lookup name with
      | some t =>
          if t.is_active then (reg, .pDone, some t, sp)
          else (eraseT reg name, .pStart, res, sp)
      | none => (reg, .pStart, res, sp)
  | .pStart =>
      let r := (SSHTunnel.init cfg freePort).start env
      if r.ok then (insertT reg name r.tunnel, .pDone, some r.tunnel, sp ++ r.spawned)
      else (reg, .pDone, none, sp ++ r.spawned)
  | .pDone => (reg, .pDone, res, sp)

/-- Run a schedule (a list of thread ids, each entry letting that thread
execute its next atomic block) of two concurrent `create_tunnel(name, cfg)`
calls, thread A with allocator result and environment `fpA`/`envA`, thread B
with `fpB`/`envB`. -/
def runSched (name : String) (cfg : SSHConfig) (fpA : Nat) (envA : StartEnv)
    (fpB : Nat) (envB : StartEnv) : ConcState → List Tid → ConcState
  | s, [] => s
  | s, Tid.A :: rest =>
      let r := threadStep name cfg fpA envA s.reg s.pcA s.resA s.spawned
      runSched name cfg fpA envA fpB envB
        { s with reg := r.1, pcA := r.2.1, resA := r.2.2.1, spawned := r.2.2.2 } rest
  | s, Tid.B :: rest =>
      let r := threadStep name cfg fpB envB s.reg s.pcB s.resB s.spawned
      runSched name cfg fpA envA fpB envB
        { s with reg := r.1, pcB := r.2.1, resB := r.2.2.1, spawned := r.2.2.2 } rest

/-- The initial state of the race: an empty registry, both threads at their
first block, nothing spawned. -/
def concInit : ConcState :=
  { reg := [], pcA := .pCheck, pcB := .pCheck, resA := none, resB := none,
    spawned := [] }

/-- A concrete config for concrete instantiations: defaults of the
`SSHConfig` dataclass with host `example.com`. -/
def c0 : SSHConfig :=
  ⟨"example.com", 22, none, none, none, none, 11434, "localhost"⟩

/-- The final state of one concrete interleaving of two concurrent
`create_tunnel("x", c0)` calls on an empty registry, both of whose spawns
and probes succeed (thread A's child gets pid 101, thread B's pid 102): A
checks, B checks, A spawns and inserts, B spawns and inserts. -/
def raceFinal : ConcState :=
  runSched "x" c0 5000 ⟨true, 101, true, true⟩ 6000 ⟨true, 102, true, true⟩
    concInit [Tid.A, Tid.B, Tid.A, Tid.B]

/-- A concrete tunnel whose owned process is running. -/
def tActive : SSHTunnel :=
  { config := c0, process := some ⟨41, true⟩, local_port := 54321,
    tunnel_ready := true }

/-- A concrete tunnel whose owned process has exited. -/
def tDead : SSHTunnel :=
  { config := c0, process := some ⟨41, false⟩, local_port := 54321,
    tunnel_ready := false }

/-- A concrete environment in which `Popen` raises. -/
def envFail : StartEnv := ⟨false, 7, false, false⟩

/-- A concrete environment in which the spawn, the grace period and the
readiness probe all succeed. -/
def envOk : StartEnv := ⟨true, 7, true, true⟩

/-- In every reachable tunnel state, when no process is owned the readiness
event is clear: `_tunnel_ready` is only ever set together with a live
process, and `stop` clears both. -/
theorem reachable_no_process_no_ready (t : SSHTunnel) (hr : Reachable t) :
    t.process = none → t.tunnel_ready = false := by
  induction hr with
  | init cfg freePort => intro _; rfl
  | start t env _h ih =>
      intro hp
      unfold SSHTunnel.start at hp ⊢
      by_cases hact : t.is_active
      · simp [hact] at hp ⊢; exact ih hp
      · simp [hact] at hp ⊢
        by_cases hs : env.spawnOk
        · by_cases hg : env.aliveAfterGrace
          · by_cases hpr : env.probeOk
            · simp [hs, hg, hpr] at hp
            · simp [hs, hg, hpr, SSHTunnel.stop] at hp ⊢
          · simp [hs, hg] at hp
        · simp [hs] at hp ⊢; exact ih hp
  | stop t _h ih =>
      intro hp
      simp [SSHTunnel.stop]; cases h : t.process <;> simp [h]
  | ext t _h ih =>
      intro hp
      unfold SSHTunnel.external_death at hp ⊢
      cases h : t.process with
      | none => exact ih h
      | some p => simp [h] at hp

/-- Whatever `start` does, the assigned local port is untouched. -/
theorem start_tunnel_local_port (t : SSHTunnel) (env : StartEnv) :
    (t.start env).tunnel.local_port = t.local_port := by
  unfold SSHTunnel.start
  split_ifs <;> simp [SSHTunnel.stop]

/-- Whatever `stop` does, the assigned local port is untouched. -/
theorem stop_local_port (t : SSHTunnel) : t.stop.1.local_port = t.local_port := by
  unfold SSHTunnel.stop
  cases h : t.process <;> simp

/-- A tunnel whose process has died externally is no longer active. -/
theorem external_death_not_active (t : SSHTunnel) :
    t.external_death.is_active = false := by
  unfold SSHTunnel.external_death SSHTunnel.is_active
  cases h : t.process <;> simp

/-- When `start` succeeds on a non-active tunnel, all three external events
went well, the new state owns the live child and has the readiness event set,
and exactly that one child was spawned. -/
theorem start_ok_shape (t : SSHTunnel) (env : StartEnv)
    (hact : t.is_active = false) (h : (t.start env).ok = true) :
    (t.start env).tunnel =
        { t with process := some ⟨env.newPid, true⟩, tunnel_ready := true } ∧
    (t.start env).spawned = [⟨env.newPid, true⟩] ∧
    (t.start env).tunnel.is_active = true := by
  unfold SSHTunnel.start at h ⊢
  by_cases hs : env.spawnOk
  · by_cases hg : env.aliveAfterGrace
    · by_cases hpr : env.probeOk
      · simp [hact, hs, hg, hpr]
        simp [SSHTunnel.is_active]
      · simp [hact, hs, hg, hpr] at h
    · simp [hact, hs, hg] at h
  · simp [hact, hs] at h

/-- C1: whenever `start()` returns false — spawn exception, early child exit,
or readiness-probe failure — no exception propagates (modelled by `start`
being a total function: the source catches every exception and returns
`False`), `is_active()` is false afterwards, and every process spawned by the
call is no longer running at return. -/
theorem start_failure_restores_clean_state (t : SSHTunnel) (env : StartEnv)
    (h : (t.start env).ok = false) :
    (t.start env).tunnel.is_active = false ∧
    ∀ p ∈ (t.start env).spawned, p.alive = false := by
  by_cases hact : t.is_active
  · unfold SSHTunnel.start at h
    simp [hact] at h
  · have hact0 : t.is_active = false := by simpa using hact
    unfold SSHTunnel.start at h ⊢
    by_cases hs : env.spawnOk
    · by_cases hg : env.aliveAfterGrace
      · by_cases hpr : env.probeOk
        · simp [hact0, hs, hg, hpr] at h
        · simp [hact0, hs, hg, hpr, SSHTunnel.stop]
          simp [SSHTunnel.is_active]
      · simp [hact0, hs, hg]
        simp [SSHTunnel.is_active]
    · simp [hact0, hs]

/-- Witness for C1 at a concrete input: a fresh tunnel whose spawn raises. -/
theorem start_failure_restores_clean_state_witness :
    ((SSHTunnel.init c0 5000).start envFail).tunnel.is_active = false :=
  (start_failure_restores_clean_state (SSHTunnel.init c0 5000) envFail
    (by decide)).1

/-- C10: calling `start()` on an already-active tunnel returns `True` at the
early-return guard, spawning nothing, building no command, and leaving the
object state (owned process and readiness event included) unchanged. -/
theorem start_on_active_is_noop (t : SSHTunnel) (env : StartEnv)
    (h : t.is_active = true) :
    t.start env = { ok := true, tunnel := t, spawned := [], cmd := none } := by
  unfold SSHTunnel.start
  simp [h]

/-- Witness for C10 at a concrete input: an active tunnel. -/
theorem start_on_active_is_noop_witness :
    tActive.start envOk =
      { ok := true, tunnel := tActive, spawned := [], cmd := none } :=
  start_on_active_is_noop tActive envOk (by decide)

/-- C9: `local_port` is immutable once assigned: `start` (under any
environment), `stop`, and an external process death leave it unchanged;
`is_active`, `wait_ready`, `get_local_url` and the readiness probe are
modelled as pure observations because the source mutates nothing there. -/
theorem local_port_immutable (t : SSHTunnel) (env : StartEnv) :
    (t.start env).tunnel.local_port = t.local_port ∧
    t.stop.1.local_port = t.local_port ∧
    t.external_death.local_port = t.local_port :=
  ⟨start_tunnel_local_port t env, stop_local_port t, rfl⟩

/-- C8: `get_local_url()` returns exactly `"http://localhost:<local_port>"`
in every state — on the handle itself, after any `start`, and after `stop` —
and a handle with local port 54321 yields exactly
`"http://localhost:54321"`. -/
theorem get_local_url_format (t : SSHTunnel) (env : StartEnv) :
    t.get_local_url = "http://localhost:" ++ toString t.local_port ∧
    (t.start env).tunnel.get_local_url =
        "http://localhost:" ++ toString t.local_port ∧
    t.stop.1.get_local_url = "http://localhost:" ++ toString t.local_port ∧
    (t.local_port = 54321 → t.get_local_url = "http://localhost:54321") := by
  refine ⟨rfl, ?_, ?_, ?_⟩
  · unfold SSHTunnel.get_local_url
    rw [start_tunnel_local_port]
  · unfold SSHTunnel.get_local_url
    rw [stop_local_port]
  · intro h
    unfold SSHTunnel.get_local_url
    rw [h]
    decide

/-- Witness for C8 at a concrete input: a handle with local port 54321. -/
theorem get_local_url_format_witness :
    tActive.get_local_url = "http://localhost:54321" :=
  (get_local_url_format tActive envOk).2.2.2 (by decide)

/-- C4: `stop()` is idempotent: after one `stop` the second `stop` leaves the
state exactly as it is and terminates nothing, so the teardown happens once;
and in any reachable state with no owned process, `stop` is a complete no-op
(state unchanged, nothing terminated, nothing raised — `stop` is total). -/
theorem stop_idempotent_noop (t : SSHTunnel) (hr : Reachable t) :
    t.stop.1.stop = (t.stop.1, []) ∧
    (t.process = none → t.stop = (t, [])) := by
  constructor
  · unfold SSHTunnel.stop
    cases h : t.process <;> simp
  · intro hp
    have hready := reachable_no_process_no_ready t hr hp
    unfold SSHTunnel.stop
    rw [hp]
    cases t
    simp_all

/-- Witness for C4 at a concrete input: a freshly constructed tunnel owns no
process, and `stop` on it is a no-op. -/
theorem stop_idempotent_noop_witness :
    (SSHTunnel.init c0 5000).stop = (SSHTunnel.init c0 5000, []) :=
  (stop_idempotent_noop (SSHTunnel.init c0 5000)
    (Reachable.init c0 5000)).2 rfl

/-- C3: whenever `start()` reaches the command build (i.e. the tunnel is not
already active), the argv handed to `Popen` is exactly the ssh binary, `-N`,
the `-L` mapping, the three fixed `-o` options, then `-i key_file` when
`key_file` is present (Python-truthy: non-`None` and non-empty), then
`username@host` when `username` is present else `host`, then `-p port` when
`port != 22`. -/
theorem start_command_shape (t : SSHTunnel) (env : StartEnv)
    (h : t.is_active = false) :
    (t.start env).cmd = some (
      ["ssh", "-N",
       "-L", toString t.local_port ++ ":" ++ t.config.remote_host ++ ":" ++
             toString t.config.remote_port,
       "-o", "StrictHostKeyChecking=no",
       "-o", "UserKnownHostsFile=/dev/null",
       "-o", "LogLevel=ERROR"]
      ++ (match t.config.key_file with
          | some k => if k = "" then [] else ["-i", k]
          | none => [])
      ++ [match t.config.username with
          | some u => if u = "" then t.config.host
                      else u ++ "@" ++ t.config.host
          | none => t.config.host]
      ++ (if t.config.port ≠ 22 then ["-p", toString t.config.port]
          else [])) := by
  have hcmd : (t.start env).cmd = some t.build_cmd := by
    unfold SSHTunnel.start
    simp [h]
    split_ifs <;> simp [SSHTunnel.stop]
  rw [hcmd]
  unfold SSHTunnel.build_cmd
  cases hk : t.config.key_file <;> cases hu : t.config.username <;>
      simp_all <;> split_ifs <;> simp_all

/-- Witness for C3 at a concrete input: a dead tunnel with the default config
(port 22, no username, no key file) and local port 54321. -/
theorem start_command_shape_witness :
    (tDead.start envFail).cmd = some
      ["ssh", "-N", "-L", "54321:localhost:11434",
       "-o", "StrictHostKeyChecking=no",
       "-o", "UserKnownHostsFile=/dev/null",
       "-o", "LogLevel=ERROR", "example.com"] := by
  rw [start_command_shape tDead envFail (by decide)]
  decide

/-- The registry `list_active` keeps exactly the active entries, in order. -/
theorem list_active_registry (m : Registry) :
    (list_active m).2 = m.filter fun e => e.2.is_active := by
  induction m with
  | nil => rfl
  | cons e rest ih =>
      obtain ⟨name, t⟩ := e
      unfold list_active
      by_cases h : t.is_active <;> simp [h, List.filter, ih]

/-- The snapshot `list_active` returns is the name→url image of exactly the
active entries, in order. -/
theorem list_active_snapshot (m : Registry) :
    (list_active m).1 =
      (m.filter fun e => e.2.is_active).map fun e => (e.1, e.2.get_local_url) := by
  induction m with
  | nil => rfl
  | cons e rest ih =>
      obtain ⟨name, t⟩ := e
      unfold list_active
      by_cases h : t.is_active <;> simp [h, List.filter, ih]

/-- Looking `name` up after its entry's process died externally yields the
externally-dead version of whatever was there. -/
theorem lookup_kill_entry (m : Registry) (name : String) :
    (kill_entry m name).lookup name =
      (m.lookup name).map SSHTunnel.external_death := by
  induction m with
  | nil => rfl
  | cons e rest ih =>
      obtain ⟨n, t⟩ := e
      unfold kill_entry at ih ⊢
      simp only [List.map_cons]
      by_cases h : n = name
      · subst h
        rw [if_pos rfl]
        simp [List.lookup]
      · rw [if_neg h]
        have hbeq : (name == n) = false := by
          simp only [beq_eq_false_iff_ne, ne_eq]
          exact fun he => h he.symm
        simp [List.lookup, hbeq, ih]

/-- After the process behind `name` dies externally, the `list_active`
snapshot has no entry for `name`. -/
theorem list_active_kill_entry_lookup (m : Registry) (name : String) :
    ((list_active (kill_entry m name)).1).lookup name = none := by
  induction m with
  | nil => rfl
  | cons e rest ih =>
      obtain ⟨n, t⟩ := e
      unfold kill_entry at ih ⊢
      simp only [List.map_cons]
      by_cases h : n = name
      · subst h
        rw [if_pos rfl]
        unfold list_active
        simp [external_death_not_active, ih]
      · rw [if_neg (by simpa using h)]
        unfold list_active
        by_cases ha : t.is_active
        · have hbeq : (name == n) = false := by
            simp [BEq.beq]
            exact fun he => h he.symm
          simp [ha, List.lookup, hbeq, ih]
        · simp [ha, ih]

/-- The processes terminated by the `close_all` loop: one dead process per
entry that owned one, in order. -/
theorem stop_all_eq (m : Registry) :
    stop_all m =
      m.filterMap fun e => e.2.process.map fun p => { pid := p.pid, alive := false } := by
  induction m with
  | nil => rfl
  | cons e rest ih =>
      obtain ⟨n, t⟩ := e
      unfold stop_all SSHTunnel.stop
      cases h : t.process <;> simp [h, List.filterMap_cons, ih]

/-- C2: `create_tunnel(name, config)` returns an existing active entry
unchanged, spawning nothing; evicts an existing dead entry first; and
otherwise constructs a fresh tunnel and calls `start`, inserting and
returning the handle on success, and inserting nothing and returning `None`
on failure. -/
theorem create_tunnel_spec (m : Registry) (name : String) (cfg : SSHConfig)
    (fp : Nat) (env : StartEnv) :
    (∀ t, m.lookup name = some t → t.is_active = true →
        create_tunnel m name cfg fp env = ⟨some t, m, []⟩) ∧
    (∀ t, m.lookup name = some t → t.is_active = false →
        ((((SSHTunnel.init cfg fp).start env).ok = true →
            create_tunnel m name cfg fp env =
              ⟨some ((SSHTunnel.init cfg fp).start env).tunnel,
               insertT (eraseT m name) name ((SSHTunnel.init cfg fp).start env).tunnel,
               ((SSHTunnel.init cfg fp).start env).spawned⟩) ∧
         (((SSHTunnel.init cfg fp).start env).ok = false →
            create_tunnel m name cfg fp env =
              ⟨none, eraseT m name, ((SSHTunnel.init cfg fp).start env).spawned⟩))) ∧
    (m.lookup name = none →
        ((((SSHTunnel.init cfg fp).start env).ok = true →
            create_tunnel m name cfg fp env =
              ⟨some ((SSHTunnel.init cfg fp).start env).tunnel,
               insertT m name ((SSHTunnel.init cfg fp).start env).tunnel,
               ((SSHTunnel.init cfg fp).start env).spawned⟩) ∧
         (((SSHTunnel.init cfg fp).start env).ok = false →
            create_tunnel m name cfg fp env =
              ⟨none, m, ((SSHTunnel.init cfg fp).start env).spawned⟩))) := by
  refine ⟨?_, ?_, ?_⟩
  · intro t hl ha
    unfold create_tunnel
    rw [hl]
    simp [ha]
  · intro t hl ha
    unfold create_tunnel create_fresh
    rw [hl]
    simp [ha]
  · intro hl
    unfold create_tunnel create_fresh
    rw [hl]
    constructor
    · intro hok
      simp [hok]
    · intro hok
      simp [hok]

/-- Witness for C2 at a concrete input: a registry holding an active entry
for `x` is returned unchanged. -/
theorem create_tunnel_spec_witness :
    create_tunnel [("x", tActive)] "x" c0 5000 envOk =
      ⟨some tActive, [("x", tActive)], []⟩ :=
  (create_tunnel_spec [("x", tActive)] "x" c0 5000 envOk).1 tActive
    (by decide) (by decide)

/-- C5: the registry is lazily self-healing. `get_tunnel(name)` returns the
entry exactly when it is currently active, evicts a dead entry in that same
call, and leaves the registry alone otherwise; `list_active()` keeps exactly
the active entries (evicting every dead one it scans) and returns their
name→url snapshot; and once the process behind `name` exits externally,
`get_tunnel(name)` returns `None` and `name` is absent from a subsequent
`list_active()` snapshot. -/
theorem registry_lazy_self_healing (m : Registry) (name : String) :
    (∀ t, m.lookup name = some t → t.is_active = true →
        get_tunnel m name = (some t, m)) ∧
    (∀ t, m.lookup name = some t → t.is_active = false →
        get_tunnel m name = (none, eraseT m name)) ∧
    (m.lookup name = none → get_tunnel m name = (none, m)) ∧
    (list_active m).2 = (m.filter fun e => e.2.is_active) ∧
    (list_active m).1 =
      ((m.filter fun e => e.2.is_active).map fun e => (e.1, e.2.get_local_url)) ∧
    (get_tunnel (kill_entry m name) name).1 = none ∧
    ((list_active (kill_entry m name)).1).lookup name = none := by
  refine ⟨?_, ?_, ?_, list_active_registry m, list_active_snapshot m, ?_,
    list_active_kill_entry_lookup m name⟩
  · intro t hl ha
    unfold get_tunnel
    rw [hl]
    simp [ha]
  · intro t hl ha
    unfold get_tunnel
    rw [hl]
    simp [ha]
  · intro hl
    unfold get_tunnel
    rw [hl]
  · unfold get_tunnel
    rw [lookup_kill_entry]
    cases h : m.lookup name with
    | none => rfl
    | some t => simp [external_death_not_active]

/-- Witness for C5 at a concrete input: a registry holding a dead entry for
`x` evicts it during `get_tunnel`. -/
theorem registry_lazy_self_healing_witness :
    get_tunnel [("x", tDead)] "x" = (none, []) :=
  (registry_lazy_self_healing [("x", tDead)] "x").2.1 tDead
    (by decide) (by decide)

/-- C7: `close_all()` empties the registry — the subsequent `list_active()`
snapshot is empty — terminates only dead processes, and every process owned
by any held handle shows up terminated. -/
theorem close_all_spec (m : Registry) :
    (close_all m).1 = [] ∧
    (list_active (close_all m).1).1 = [] ∧
    (∀ p ∈ (close_all m).2, p.alive = false) ∧
    (∀ e ∈ m, ∀ p, e.2.process = some p →
        ({ pid := p.pid, alive := false } : Proc) ∈ (close_all m).2) := by
  refine ⟨rfl, rfl, ?_, ?_⟩
  · intro p hp
    unfold close_all at hp
    rw [stop_all_eq, List.mem_filterMap] at hp
    obtain ⟨a, _, hfa⟩ := hp
    cases hproc : a.2.process with
    | none => rw [hproc] at hfa; simp at hfa
    | some q =>
        rw [hproc] at hfa
        have hpq : ({ pid := q.pid, alive := false } : Proc) = p := by
          simpa using hfa
        rw [← hpq]
  · intro e he p hp
    unfold close_all
    rw [stop_all_eq]
    simp [List.mem_filterMap]
    exact ⟨e.1, e.2, he, p, hp, rfl⟩

/-- Witness for C7 at a concrete input: closing a registry holding one active
tunnel terminates its process. -/
theorem close_all_spec_witness :
    ({ pid := 41, alive := false } : Proc) ∈ (close_all [("x", tActive)]).2 :=
  (close_all_spec [("x", tActive)]).2.2.2 ("x", tActive) (by decide)
    ⟨41, true⟩ (by decide)

/-- C6 counterexample: `SSHTunnelManager` takes no lock, so two concurrent
`create_tunnel("x", c0)` calls are NOT serialized: in the interleaving where
both threads pass the reuse check before either spawns, both calls complete,
two forwarding processes are spawned and both are still running, while the
registry holds a single entry `x` (the first inserted handle was overwritten
and its live process leaked) — refuting the claim that exactly one
forwarding process is spawned. -/
theorem create_tunnel_race_two_processes :
    raceFinal.pcA = TPhase.pDone ∧ raceFinal.pcB = TPhase.pDone ∧
    raceFinal.spawned = [⟨101, true⟩, ⟨102, true⟩] ∧
    raceFinal.reg.length = 1 := by decide

/-- C6 (amended): the registry performs no locking, so under interleaved
concurrent callers two `create_tunnel` calls for one name can each spawn a
live forwarding process; when the two calls are serialized (the second runs
after the first completes), a successful first call leaves one entry for
`x`, and the second call reuses it: it spawns nothing, returns the same
handle, and leaves the registry unchanged, so exactly one process is spawned
in total. -/
theorem create_tunnel_sequential_one_process (cfg : SSHConfig)
    (fp1 fp2 : Nat) (env1 env2 : StartEnv)
    (h : ((SSHTunnel.init cfg fp1).start env1).ok = true) :
    (create_tunnel [] "x" cfg fp1 env1).spawned.length = 1 ∧
    (create_tunnel (create_tunnel [] "x" cfg fp1 env1).reg "x" cfg fp2
        env2).spawned = [] ∧
    (create_tunnel (create_tunnel [] "x" cfg fp1 env1).reg "x" cfg fp2
        env2).result = (create_tunnel [] "x" cfg fp1 env1).result ∧
    (create_tunnel (create_tunnel [] "x" cfg fp1 env1).reg "x" cfg fp2
        env2).reg = (create_tunnel [] "x" cfg fp1 env1).reg ∧
    (create_tunnel [] "x" cfg fp1 env1).reg.length = 1 := by
  obtain ⟨hT, hsp, hactT⟩ :=
    start_ok_shape (SSHTunnel.init cfg fp1) env1 rfl h
  have ho1 : create_tunnel [] "x" cfg fp1 env1 =
      ⟨some ((SSHTunnel.init cfg fp1).start env1).tunnel,
       [("x", ((SSHTunnel.init cfg fp1).start env1).tunnel)],
       ((SSHTunnel.init cfg fp1).start env1).spawned⟩ := by
    unfold create_tunnel create_fresh
    simp [List.lookup, h, insertT]
  have ho2 : create_tunnel
        [("x", ((SSHTunnel.init cfg fp1).start env1).tunnel)] "x" cfg fp2
        env2 =
      ⟨some ((SSHTunnel.init cfg fp1).start env1).tunnel,
       [("x", ((SSHTunnel.init cfg fp1).start env1).tunnel)], []⟩ := by
    unfold create_tunnel
    simp [List.lookup, hactT]
  rw [ho1]
  simp only [ho2]
  simp [hsp]

/-- Witness for the amended C6 at a concrete input: after a successful
`create_tunnel("x", c0)`, a second sequential call spawns nothing. -/
theorem create_tunnel_sequential_one_process_witness :
    (create_tunnel (create_tunnel [] "x" c0 5000 envOk).reg "x" c0 6000
        envOk).spawned = [] :=
  (create_tunnel_sequential_one_process c0 5000 6000 envOk envOk
    (by decide)).2.1

end SshTunnelSpec
